import Mathlib

/-!
Shallow embedding of the AKChat WebSocket server (`src/index.ts`):
an in-memory session/room coordination core for a chat relay.

The JavaScript runtime values that flow through the handler are modelled by
`JsValue` (the numbers arising in this code are integers or `NaN`, modelled
by `JsNum`).  The two global maps `activeClients` and `roomUserMap` are
modelled as insertion-ordered association lists, matching the iteration
order of JS `Map`/`Set`; key/element equality of `Map`/`Set` is
SameValueZero, which coincides with structural equality on `JsValue`
(`NaN` equals `NaN` there), while `===` / `!==` in expressions is the
separate `jsStrictEq` (`NaN` differs from everything, itself included).

External collaborators (the Prisma room lookup and chat store) and the
per-send success of the underlying socket are oracles packaged in `Env`;
a thrown exception from a store call or a `ws.send` is an explicit
control-flow outcome (`Flow.thrown`) threaded exactly along the
`try`/`catch` structure of the source.
-/

namespace AKChat

/-- JS numbers as they arise in this program: integers or `NaN`. -/
inductive JsNum where
  | int (i : Int)
  | nan
deriving DecidableEq, Repr

/-- The JS runtime values that can appear in a parsed JSON frame field
(objects/arrays do not occur in the fields this server reads). -/
inductive JsValue where
  | undefined
  | null
  | bool (b : Bool)
  | num (n : JsNum)
  | str (s : String)
deriving DecidableEq, Repr

/-- JS truthiness: `undefined`, `null`, `false`, `0`, `NaN` and `""` are falsy. -/
def JsValue.truthy : JsValue → Bool
  | .undefined => false
  | .null => false
  | .bool b => b
  | .num (.int i) => i != 0
  | .num .nan => false
  | .str s => s != ""

/-- JS `Number(string)`: trimmed empty string is `0`, an integer literal is its
value, anything else (within this model's value space) is `NaN`. -/
def strToNumber (s : String) : JsNum :=
  let t := s.trim
  if t = "" then .int 0
  else
    match t.toInt? with
    | some i => .int i
    | none => .nan

/-- The `Number(x)` coercion used on `userId` / `user_id`. -/
def toNumber : JsValue → JsNum
  | .undefined => .nan
  | .null => .int 0
  | .bool b => .int (if b then 1 else 0)
  | .num n => n
  | .str s => strToNumber s

/-- Strict equality `===` on numbers: `NaN` equals nothing, itself included. -/
def jsNumStrictEq : JsNum → JsNum → Bool
  | .int i, .int j => i == j
  | _, _ => false

/-- Strict equality `===` on values. -/
def jsStrictEq : JsValue → JsValue → Bool
  | .undefined, .undefined => true
  | .null, .null => true
  | .bool a, .bool b => a == b
  | .num a, .num b => jsNumStrictEq a b
  | .str a, .str b => a == b
  | _, _ => false

/-- An `activeClients` entry: the registration info stored for a socket.
`userId` is the already-coerced `numericUserId`; `roomId` is the raw
frame value that passed the truthiness check. -/
structure Session where
  userId : JsNum
  roomId : JsValue
deriving DecidableEq, Repr

/-- A room row as returned by `prisma.roomId.findUnique` with
`include: { users: true }`: the ids of its authorized users. -/
structure RoomRec where
  users : List Int
deriving DecidableEq, Repr

/-- A chat row as built by `prisma.chat.create` (`id` is opaque and,
being mentioned by no claim, omitted). -/
structure Chat where
  message : JsValue
  createdAt : Nat
  userId : JsNum
  roomId : JsValue
deriving DecidableEq, Repr

/-- The two global maps. Association lists in insertion order. -/
structure ServerState where
  activeClients : List (Nat × Session)
  roomUserMap : List (JsValue × List JsNum)
deriving DecidableEq, Repr

/-- JS `Map.get`. -/
def mapGet (m : List (Nat × Session)) (k : Nat) : Option Session :=
  (m.find? (fun e => e.1 == k)).map (·.2)

/-- JS `Map.set`: update in place keeping the key's position, else append. -/
def mapSet (m : List (Nat × Session)) (k : Nat) (v : Session) :
    List (Nat × Session) :=
  if m.any (fun e => e.1 == k) then
    m.map (fun e => if e.1 == k then (k, v) else e)
  else m ++ [(k, v)]

/-- JS `Map.delete`. -/
def mapDelete (m : List (Nat × Session)) (k : Nat) : List (Nat × Session) :=
  m.filter (fun e => e.1 != k)

/-- The `roomUserMap.get` lookup (SameValueZero key equality). -/
def rmGet (m : List (JsValue × List JsNum)) (k : JsValue) : Option (List JsNum) :=
  (m.find? (fun e => e.1 == k)).map (·.2)

/-- Update via `roomUserMap.set` of an existing key's set value in place. -/
def rmSet (m : List (JsValue × List JsNum)) (k : JsValue) (v : List JsNum) :
    List (JsValue × List JsNum) :=
  m.map (fun e => if e.1 == k then (k, v) else e)

/-- The `roomUserMap.delete` removal. -/
def rmDelete (m : List (JsValue × List JsNum)) (k : JsValue) :
    List (JsValue × List JsNum) :=
  m.filter (fun e => e.1 != k)

/-- JS `Set.add`: append if absent (SameValueZero membership). -/
def setAdd (s : List JsNum) (v : JsNum) : List JsNum :=
  if s.contains v then s else s ++ [v]

/-- Lines 73-76: ensure the room's set exists, then add the user to it. -/
def roomAdd (m : List (JsValue × List JsNum)) (roomId : JsValue) (uid : JsNum) :
    List (JsValue × List JsNum) :=
  if m.any (fun e => e.1 == roomId) then
    m.map (fun e => if e.1 == roomId then (e.1, setAdd e.2 uid) else e)
  else m ++ [(roomId, setAdd [] uid)]

/-- The fields of a parsed inbound frame that the handler reads; a field
absent from the JSON object reads as `undefined`. -/
structure Frame where
  type : JsValue
  roomId : JsValue
  userId : JsValue
  user_id : JsValue
  text : JsValue
deriving DecidableEq, Repr

/-- Result of `JSON.parse` on the raw data: failure or a parsed frame. -/
inductive ParseResult where
  | fail
  | ok (f : Frame)
deriving DecidableEq, Repr

/-- Outcome of a Prisma call: a value, or a thrown error. -/
inductive DbResult (α : Type) where
  | ok (a : α)
  | err
deriving DecidableEq, Repr

/-- External-store calls made while handling one frame, in order. -/
inductive DbCall where
  | roomLookupReg (roomId : JsValue)
  | roomLookupMsg (roomId : JsValue)
  | chatCreate (c : Chat)
deriving DecidableEq, Repr

/-- The frames this server sends (`JSON.stringify` payloads, structurally). -/
inductive OutFrame where
  | error (msg : String)
  | registerSuccess (roomId : JsValue) (userId : JsNum)
  | messageSent (chat : Chat)
  | newMessage (chat : Chat)
deriving DecidableEq, Repr

/-- Whether an outbound frame is a `{type:"error"}` envelope. -/
def OutFrame.isError : OutFrame → Bool
  | .error _ => true
  | _ => false

/-- Oracles for the external collaborators and the transport:
`findRoomReg` is the register-branch room lookup (with `users` included),
`findRoomMsg` the message-branch existence re-check, `persistOk` whether
`prisma.chat.create` succeeds, `now` the `new Date()` stamp, `openState`
whether a socket's `readyState` is `OPEN`, and `sendOk n` whether the
`n`-th `send` attempt of this frame's handling succeeds or throws. -/
structure Env where
  findRoomReg : JsValue → DbResult (Option RoomRec)
  findRoomMsg : JsValue → DbResult (Option Unit)
  persistOk : Bool
  now : Nat
  openState : Nat → Bool
  sendOk : Nat → Bool

/-- Effects accumulated while handling one inbound frame: the updated
global state, every attempted send `(target socket, frame)` in order,
every external-store call in order, and the send-attempt counter. -/
structure Proc where
  st : ServerState
  sends : List (Nat × OutFrame)
  dbCalls : List DbCall
  sendCount : Nat
deriving Repr

/-- Control flow at a statement boundary: normal completion, or an
exception propagating to the enclosing `try`/`catch`. -/
inductive Flow where
  | done
  | thrown
deriving DecidableEq, Repr

/-- A `ws.send`/`client.send` attempt: always logged, succeeds iff the
oracle says so. -/
def trySend (env : Env) (p : Proc) (tgt : Nat) (f : OutFrame) : Proc × Bool :=
  (⟨p.st, p.sends ++ [(tgt, f)], p.dbCalls, p.sendCount + 1⟩, env.sendOk p.sendCount)

/-- An unguarded `ws.send(error); return;`: a send failure throws to the
enclosing handler scope. -/
def sendRet (env : Env) (p : Proc) (tgt : Nat) (f : OutFrame) : Proc × Flow :=
  let r := trySend env p tgt f
  (r.1, if r.2 then .done else .thrown)

/-- A send wrapped in its own `try { ... } catch { console.error }`:
failure is swallowed. -/
def sendSwallow (env : Env) (p : Proc) (tgt : Nat) (f : OutFrame) : Proc :=
  (trySend env p tgt f).1

/-- Record an external-store call. -/
def logDb (p : Proc) (c : DbCall) : Proc :=
  ⟨p.st, p.sends, p.dbCalls ++ [c], p.sendCount⟩

/-- The `parsed.type === "register"` branch (lines 32-85). -/
def handleRegister (env : Env) (p0 : Proc) (ws : Nat) (parsed : Frame) :
    Proc × Flow :=
  if !parsed.roomId.truthy || !parsed.userId.truthy then
    sendRet env p0 ws (.error "Missing roomId or userId")
  else
    let roomId := parsed.roomId
    let numericUserId := toNumber parsed.userId
    let p1 := logDb p0 (.roomLookupReg roomId)
    match env.findRoomReg roomId with
    | .err => sendRet env p1 ws (.error "Database error during room lookup")
    | .ok none => sendRet env p1 ws (.error "Room not found")
    | .ok (some room) =>
      if !(room.users.any fun u => jsNumStrictEq (.int u) numericUserId) then
        sendRet env p1 ws (.error "Unauthorized user or room")
      else
        let st1 : ServerState :=
          ⟨mapSet p1.st.activeClients ws ⟨numericUserId, roomId⟩,
            p1.st.roomUserMap⟩
        let st2 : ServerState :=
          ⟨st1.activeClients, roomAdd st1.roomUserMap roomId numericUserId⟩
        let p2 : Proc := ⟨st2, p1.sends, p1.dbCalls, p1.sendCount⟩
        (sendSwallow env p2 ws (.registerSuccess roomId numericUserId), .done)

/-- The broadcast condition of the fanout loop (lines 145-150). -/
def bcastCond (env : Env) (ws : Nat) (roomId : JsValue)
    (recipients : List JsNum) (c : Nat) (meta : Session) : Bool :=
  c != ws && jsStrictEq meta.roomId roomId &&
    recipients.contains meta.userId && env.openState c

/-- The fanout loop (lines 144-157): iterate `activeClients`, each
per-recipient send guarded by its own `try`/`catch`. -/
def broadcast (env : Env) (p : Proc) (ws : Nat) (roomId : JsValue)
    (recipients : List JsNum) (chat : Chat) : Proc :=
  p.st.activeClients.foldl
    (fun acc e =>
      if bcastCond env ws roomId recipients e.1 e.2 then
        sendSwallow env acc e.1 (.newMessage chat)
      else acc)
    p

/-- The `parsed.type === "message"` branch (lines 88-159). -/
def handleMessage (env : Env) (p0 : Proc) (ws : Nat) (parsed : Frame) :
    Proc × Flow :=
  match mapGet p0.st.activeClients ws with
  | none => sendRet env p0 ws (.error "Client not registered")
  | some clientMeta =>
    let roomId := parsed.roomId
    let numericUserId := toNumber parsed.user_id
    if !jsStrictEq roomId clientMeta.roomId ||
        !jsNumStrictEq numericUserId clientMeta.userId then
      sendRet env p0 ws (.error "Invalid room or user context")
    else
      let p1 := logDb p0 (.roomLookupMsg roomId)
      match env.findRoomMsg roomId with
      | .err => sendRet env p1 ws (.error "Database error during room validation")
      | .ok none => sendRet env p1 ws (.error "Room not found")
      | .ok (some _) =>
        let chat : Chat := ⟨parsed.text, env.now, numericUserId, roomId⟩
        let p2 := logDb p1 (.chatCreate chat)
        if !env.persistOk then
          sendRet env p2 ws (.error "Failed to save message")
        else
          let p3 := sendSwallow env p2 ws (.messageSent chat)
          match rmGet p3.st.roomUserMap roomId with
          | none => (p3, .done)
          | some recipients => (broadcast env p3 ws roomId recipients chat, .done)

/-- Body of the `ws.on("message")` handler inside the outer `try`
(lines 16-159): parse-failure path, then dispatch on `parsed.type`;
an unrecognized or missing type falls through both branches. -/
def onMessageBody (env : Env) (st : ServerState) (ws : Nat)
    (input : ParseResult) : Proc × Flow :=
  let p0 : Proc := ⟨st, [], [], 0⟩
  match input with
  | .fail => sendRet env p0 ws (.error "Invalid JSON format")
  | .ok parsed =>
    if jsStrictEq parsed.type (.str "register") then
      handleRegister env p0 ws parsed
    else if jsStrictEq parsed.type (.str "message") then
      handleMessage env p0 ws parsed
    else (p0, .done)

/-- The full `ws.on("message")` handler: the outer `catch` (lines 160-167)
converts any exception into a guarded error send, so nothing propagates
past the handler. -/
def onMessage (env : Env) (st : ServerState) (ws : Nat)
    (input : ParseResult) : Proc × Flow :=
  match onMessageBody env st ws input with
  | (p, .done) => (p, .done)
  | (p, .thrown) => (sendSwallow env p ws (.error "Unexpected server error"), .done)

/-- The `ws.on("close")` handler (lines 170-184). -/
def handleClose (st : ServerState) (ws : Nat) : ServerState :=
  let st1 : ServerState :=
    match mapGet st.activeClients ws with
    | some meta =>
      match rmGet st.roomUserMap meta.roomId with
      | some roomSet =>
        let s' := roomSet.filter (fun u => !(u == meta.userId))
        if s'.length == 0 then
          ⟨st.activeClients, rmDelete st.roomUserMap meta.roomId⟩
        else ⟨st.activeClients, rmSet st.roomUserMap meta.roomId s'⟩
      | none => st
    | none => st
  ⟨mapDelete st1.activeClients ws, st1.roomUserMap⟩

/-- A server-visible event: an inbound frame on a socket (with that
moment's external-store oracles) or a socket close. -/
inductive Event where
  | frame (conn : Nat) (env : Env) (input : ParseResult)
  | close (conn : Nat)

/-- One event's effect on the global state. -/
def stepEvent (st : ServerState) : Event → ServerState
  | .frame c env i => (onMessage env st c i).1.st
  | .close c => handleClose st c

/-- Run a finite event sequence from a state. -/
def runEvents (st : ServerState) (es : List Event) : ServerState :=
  es.foldl stepEvent st

/-- The spec's `membersOf(roomId)`: the Room Index set for a room (empty if absent). -/
def membersOf (st : ServerState) (roomId : JsValue) : List JsNum :=
  (rmGet st.roomUserMap roomId).getD []

/-- The userIds of currently-live Sessions registered in a room. -/
def liveUsers (st : ServerState) (roomId : JsValue) : List JsNum :=
  (st.activeClients.filter (fun e => e.2.roomId == roomId)).map (·.2.userId)

/-- The chat row the message branch hands to `prisma.chat.create`. -/
def mkChat (env : Env) (f : Frame) : Chat :=
  ⟨f.text, env.now, toNumber f.user_id, f.roomId⟩

/-- Number of `{type:"error"}` frames in a send log. -/
def errCount (l : List (Nat × OutFrame)) : Nat :=
  (l.filter fun fr => fr.2.isError).length

/-- A concrete store: rooms `"r1"` and `"r2"` exist with authorized users
`[1, 2]`, `"r1"` also answers the message-branch re-check; every send
succeeds, every socket is open, persistence succeeds. -/
def demoEnv : Env :=
  ⟨fun r => if r == .str "r1" then .ok (some ⟨[1, 2]⟩)
            else if r == .str "r2" then .ok (some ⟨[1, 2]⟩) else .ok none,
   fun r => if r == .str "r1" then .ok (some ()) else .ok none,
   true, 0, fun _ => true, fun _ => true⟩

/-- `demoEnv` with a failing chat store. -/
def demoEnvNoPersist : Env :=
  ⟨demoEnv.findRoomReg, demoEnv.findRoomMsg, false, 0,
   fun _ => true, fun _ => true⟩

/-- A register frame for a given room and userId value. -/
def regFrame (room : String) (uid : JsValue) : Frame :=
  ⟨.str "register", .str room, uid, .undefined, .undefined⟩

/-- A message frame for a given room, user value and text. -/
def msgFrame (room : String) (uid : JsValue) (text : JsValue) : Frame :=
  ⟨.str "message", .str room, .undefined, uid, text⟩

/-- The empty initial state. -/
def st0 : ServerState := ⟨[], []⟩

/-- A state with socket 0 registered as user 1 and socket 1 as user 2,
both in room `"r1"` (reachable by two successful registrations). -/
def st1 : ServerState :=
  ⟨[(0, ⟨.int 1, .str "r1"⟩), (1, ⟨.int 2, .str "r1"⟩)],
    [(.str "r1", [.int 1, .int 2])]⟩

/-- The state after socket 0 registers in `"r1"` as user 1 and then
re-registers in `"r2"` as user 1. -/
def orphanState : ServerState :=
  runEvents st0
    [.frame 0 demoEnv (.ok (regFrame "r1" (.num (.int 1)))),
     .frame 0 demoEnv (.ok (regFrame "r2" (.num (.int 1))))]

/-! ## Helper lemmas -/

/-- The fanout fold appends exactly one `new-message` attempt per list entry
satisfying the broadcast condition, and touches neither the global state nor
the store-call log. -/
theorem bcastFold_spec (env : Env) (ws : Nat) (roomId : JsValue)
    (recips : List JsNum) (chat : Chat) (l : List (Nat × Session)) (p : Proc) :
    (l.foldl (fun acc e =>
        if bcastCond env ws roomId recips e.1 e.2 then
          sendSwallow env acc e.1 (.newMessage chat)
        else acc) p).sends
      = p.sends ++ (l.filter fun e => bcastCond env ws roomId recips e.1 e.2).map
          (fun e => (e.1, OutFrame.newMessage chat)) ∧
    (l.foldl (fun acc e =>
        if bcastCond env ws roomId recips e.1 e.2 then
          sendSwallow env acc e.1 (.newMessage chat)
        else acc) p).st = p.st ∧
    (l.foldl (fun acc e =>
        if bcastCond env ws roomId recips e.1 e.2 then
          sendSwallow env acc e.1 (.newMessage chat)
        else acc) p).dbCalls = p.dbCalls := by
  induction l generalizing p with
  | nil => simp
  | cons e t ih =>
    by_cases hc : bcastCond env ws roomId recips e.1 e.2
    · obtain ⟨h1, h2, h3⟩ := ih (sendSwallow env p e.1 (.newMessage chat))
      simp only [List.foldl_cons, List.filter_cons, hc, if_pos, if_true]
      refine ⟨?_, ?_, ?_⟩
      · rw [h1]; simp [sendSwallow, trySend]
      · rw [h2]; simp [sendSwallow, trySend]
      · rw [h3]; simp [sendSwallow, trySend]
    · obtain ⟨h1, h2, h3⟩ := ih p
      simp only [List.foldl_cons, List.filter_cons, hc, if_neg, if_false]
      simp only [Bool.false_eq_true, if_false] at *
      exact ⟨h1, h2, h3⟩

/-- The fanout over the live client map: sends of `broadcast`. -/
theorem broadcast_sends (env : Env) (p : Proc) (ws : Nat) (roomId : JsValue)
    (recips : List JsNum) (chat : Chat) :
    (broadcast env p ws roomId recips chat).sends
      = p.sends ++ (p.st.activeClients.filter fun e =>
            bcastCond env ws roomId recips e.1 e.2).map
          (fun e => (e.1, OutFrame.newMessage chat)) :=
  (bcastFold_spec env ws roomId recips chat p.st.activeClients p).1

/-- `broadcast` does not change the global state. -/
theorem broadcast_st (env : Env) (p : Proc) (ws : Nat) (roomId : JsValue)
    (recips : List JsNum) (chat : Chat) :
    (broadcast env p ws roomId recips chat).st = p.st :=
  (bcastFold_spec env ws roomId recips chat p.st.activeClients p).2.1

/-- `broadcast` makes no external-store call. -/
theorem broadcast_dbCalls (env : Env) (p : Proc) (ws : Nat) (roomId : JsValue)
    (recips : List JsNum) (chat : Chat) :
    (broadcast env p ws roomId recips chat).dbCalls = p.dbCalls :=
  (bcastFold_spec env ws roomId recips chat p.st.activeClients p).2.2

/-- Every branch of the register handler attempts exactly one send, and it
is addressed to the registering socket. -/
theorem handleRegister_sends_char (env : Env) (p : Proc) (ws : Nat)
    (parsed : Frame) :
    ∃ fr : OutFrame,
      (handleRegister env p ws parsed).1.sends = p.sends ++ [(ws, fr)] := by
  by_cases h1 : (!parsed.roomId.truthy || !parsed.userId.truthy) = true
  · exact ⟨.error "Missing roomId or userId",
      by simp [handleRegister, h1, sendRet, trySend]⟩
  · cases hr : env.findRoomReg parsed.roomId with
    | err => exact ⟨.error "Database error during room lookup",
        by simp [handleRegister, h1, hr, sendRet, trySend, logDb]⟩
    | ok o =>
      cases o with
      | none => exact ⟨.error "Room not found",
          by simp [handleRegister, h1, hr, sendRet, trySend, logDb]⟩
      | some room =>
        by_cases h2 : (!room.users.any fun u =>
            jsNumStrictEq (.int u) (toNumber parsed.userId)) = true
        · exact ⟨.error "Unauthorized user or room",
            by simp [handleRegister, h1, hr, h2, sendRet, trySend, logDb]⟩
        · exact ⟨.registerSuccess parsed.roomId (toNumber parsed.userId),
            by simp [handleRegister, h1, hr, h2, sendSwallow, trySend, logDb]⟩

/-- When every send succeeds, no exception leaves the register handler. -/
theorem handleRegister_flow (env : Env) (p : Proc) (ws : Nat) (parsed : Frame)
    (hok : ∀ n, env.sendOk n = true) :
    (handleRegister env p ws parsed).2 = .done := by
  by_cases h1 : (!parsed.roomId.truthy || !parsed.userId.truthy) = true
  · simp [handleRegister, h1, sendRet, trySend, hok]
  · cases hr : env.findRoomReg parsed.roomId with
    | err => simp [handleRegister, h1, hr, sendRet, trySend, logDb, hok]
    | ok o =>
      cases o with
      | none => simp [handleRegister, h1, hr, sendRet, trySend, logDb, hok]
      | some room =>
        by_cases h2 : (!room.users.any fun u =>
            jsNumStrictEq (.int u) (toNumber parsed.userId)) = true
        · simp [handleRegister, h1, hr, h2, sendRet, trySend, logDb, hok]
        · simp [handleRegister, h1, hr, h2, sendSwallow, trySend, logDb]

/-- Every branch of the message handler appends to the log either a single
frame addressed to the sender, or the sender's acknowledgment followed by
`new-message` frames only. -/
theorem handleMessage_sends_char (env : Env) (p : Proc) (ws : Nat)
    (parsed : Frame) :
    (∃ fr : OutFrame,
      (handleMessage env p ws parsed).1.sends = p.sends ++ [(ws, fr)]) ∨
    (∃ chat rest,
      (handleMessage env p ws parsed).1.sends
        = p.sends ++ (ws, OutFrame.messageSent chat) :: rest ∧
      ∀ x ∈ rest, ∃ tgt c, x = (tgt, OutFrame.newMessage c)) := by
  cases hm : mapGet p.st.activeClients ws with
  | none => exact Or.inl ⟨.error "Client not registered",
      by simp [handleMessage, hm, sendRet, trySend]⟩
  | some meta =>
    by_cases hc : (!jsStrictEq parsed.roomId meta.roomId ||
        !jsNumStrictEq (toNumber parsed.user_id) meta.userId) = true
    · exact Or.inl ⟨.error "Invalid room or user context",
        by simp [handleMessage, hm, hc, sendRet, trySend]⟩
    · cases hr : env.findRoomMsg parsed.roomId with
      | err => exact Or.inl ⟨.error "Database error during room validation",
          by simp [handleMessage, hm, hc, hr, sendRet, trySend, logDb]⟩
      | ok o =>
        cases o with
        | none => exact Or.inl ⟨.error "Room not found",
            by simp [handleMessage, hm, hc, hr, sendRet, trySend, logDb]⟩
        | some u =>
          by_cases hp : (!env.persistOk) = true
          · exact Or.inl ⟨.error "Failed to save message",
              by simp [handleMessage, hm, hc, hr, hp, sendRet, trySend, logDb]⟩
          · cases hrm : rmGet p.st.roomUserMap parsed.roomId with
            | none =>
              refine Or.inr ⟨mkChat env parsed, [], ?_, by simp⟩
              simp [handleMessage, hm, hc, hr, hp, hrm, sendSwallow, trySend,
                logDb, mkChat]
            | some recips =>
              refine Or.inr ⟨mkChat env parsed,
                (p.st.activeClients.filter fun e =>
                    bcastCond env ws parsed.roomId recips e.1 e.2).map
                  (fun e => (e.1, OutFrame.newMessage (mkChat env parsed))),
                ?_, ?_⟩
              · simp [handleMessage, hm, hc, hr, hp, hrm, sendSwallow,
                  trySend, logDb, broadcast_sends, mkChat]
              · intro x hx
                simp only [List.mem_map] at hx
                obtain ⟨e, _, he⟩ := hx
                exact ⟨e.1, _, he.symm⟩

/-- When every send succeeds, no exception leaves the message handler. -/
theorem handleMessage_flow (env : Env) (p : Proc) (ws : Nat) (parsed : Frame)
    (hok : ∀ n, env.sendOk n = true) :
    (handleMessage env p ws parsed).2 = .done := by
  cases hm : mapGet p.st.activeClients ws with
  | none => simp [handleMessage, hm, sendRet, trySend, hok]
  | some meta =>
    by_cases hc : (!jsStrictEq parsed.roomId meta.roomId ||
        !jsNumStrictEq (toNumber parsed.user_id) meta.userId) = true
    · simp [handleMessage, hm, hc, sendRet, trySend, hok]
    · cases hr : env.findRoomMsg parsed.roomId with
      | err => simp [handleMessage, hm, hc, hr, sendRet, trySend, logDb, hok]
      | ok o =>
        cases o with
        | none => simp [handleMessage, hm, hc, hr, sendRet, trySend, logDb, hok]
        | some u =>
          by_cases hp : (!env.persistOk) = true
          · simp [handleMessage, hm, hc, hr, hp, sendRet, trySend, logDb, hok]
          · cases hrm : rmGet p.st.roomUserMap parsed.roomId with
            | none =>
              simp [handleMessage, hm, hc, hr, hp, hrm, sendSwallow, trySend,
                logDb]
            | some recips =>
              simp [handleMessage, hm, hc, hr, hp, hrm, sendSwallow, trySend,
                logDb]

/-- The send log of the handler body (before the outer catch) is empty, a
single frame to the sender, or the sender's acknowledgment followed only by
`new-message` frames. -/
theorem onMessageBody_sends_char (env : Env) (st : ServerState) (ws : Nat)
    (input : ParseResult) :
    (onMessageBody env st ws input).1.sends = [] ∨
    (∃ fr : OutFrame, (onMessageBody env st ws input).1.sends = [(ws, fr)]) ∨
    (∃ chat rest,
      (onMessageBody env st ws input).1.sends
        = (ws, OutFrame.messageSent chat) :: rest ∧
      ∀ x ∈ rest, ∃ tgt c, x = (tgt, OutFrame.newMessage c)) := by
  cases input with
  | fail =>
    refine Or.inr (Or.inl ⟨.error "Invalid JSON format", ?_⟩)
    simp [onMessageBody, sendRet, trySend]
  | ok parsed =>
    by_cases h1 : jsStrictEq parsed.type (.str "register") = true
    · obtain ⟨fr, hfr⟩ := handleRegister_sends_char env ⟨st, [], [], 0⟩ ws parsed
      refine Or.inr (Or.inl ⟨fr, ?_⟩)
      simp only [onMessageBody, h1, if_true]
      simpa using hfr
    · by_cases h2 : jsStrictEq parsed.type (.str "message") = true
      · rcases handleMessage_sends_char env ⟨st, [], [], 0⟩ ws parsed with
          ⟨fr, hfr⟩ | ⟨chat, rest, hsr, hall⟩
        · refine Or.inr (Or.inl ⟨fr, ?_⟩)
          simp only [onMessageBody, h1, h2, if_true, if_false,
            Bool.false_eq_true]
          simpa using hfr
        · refine Or.inr (Or.inr ⟨chat, rest, ?_, hall⟩)
          simp only [onMessageBody, h1, h2, if_true, if_false,
            Bool.false_eq_true]
          simpa using hsr
      · exact Or.inl (by simp [onMessageBody, h1, h2])

/-- When every send succeeds, the handler body completes normally. -/
theorem onMessageBody_flow (env : Env) (st : ServerState) (ws : Nat)
    (input : ParseResult) (hok : ∀ n, env.sendOk n = true) :
    (onMessageBody env st ws input).2 = .done := by
  cases input with
  | fail => simp [onMessageBody, sendRet, trySend, hok]
  | ok parsed =>
    by_cases h1 : jsStrictEq parsed.type (.str "register") = true
    · simp only [onMessageBody, h1, if_true]
      exact handleRegister_flow env ⟨st, [], [], 0⟩ ws parsed hok
    · by_cases h2 : jsStrictEq parsed.type (.str "message") = true
      · simp only [onMessageBody, h1, h2, if_true, if_false, Bool.false_eq_true]
        exact handleMessage_flow env ⟨st, [], [], 0⟩ ws parsed hok
      · simp [onMessageBody, h1, h2]

/-- Dispatch literal: `"register" === "register"`. -/
theorem jsStrictEq_register_register :
    jsStrictEq (.str "register") (.str "register") = true := rfl

/-- Dispatch literal: `"message" === "register"` is false. -/
theorem jsStrictEq_message_register :
    jsStrictEq (.str "message") (.str "register") = false := rfl

/-- Dispatch literal: `"message" === "message"`. -/
theorem jsStrictEq_message_message :
    jsStrictEq (.str "message") (.str "message") = true := rfl

/-! ## Claims -/

/-- C1: the claim says a second successful register removes the old
`(userId, roomId)` pair from the Room Index before adding the new one.
The code only overwrites the Session and adds the new pair: after socket 0
registers `(1, "r1")` and then re-registers `(1, "r2")`, its Session is
`(1, "r2")` but room `"r1"`'s membership set still contains user 1 — the
old pair was never removed, so an orphaned membership entry remains. -/
theorem reregister_leaves_orphan_membership :
    mapGet orphanState.activeClients 0 = some ⟨.int 1, .str "r2"⟩ ∧
    membersOf orphanState (.str "r1") = [.int 1] ∧
    membersOf orphanState (.str "r2") = [.int 1] := by decide

/-- C2: the claimed Room Index consistency invariant fails on the code:
after the two-register event sequence of `orphanState`, room `"r1"`'s index
set is `{1}` although no live Session for room `"r1"` exists. -/
theorem roomIndex_consistency_violated :
    membersOf orphanState (.str "r1") = [.int 1] ∧
    liveUsers orphanState (.str "r1") = [] := by decide

/-- C8: a well-formed frame whose `type` is neither `"register"` nor
`"message"` (including a missing `type`) produces no reply of any kind, no
external-store call, and no state mutation. -/
theorem unknown_type_ignored (env : Env) (st : ServerState) (ws : Nat)
    (f : Frame)
    (h1 : jsStrictEq f.type (.str "register") = false)
    (h2 : jsStrictEq f.type (.str "message") = false) :
    (onMessage env st ws (.ok f)).1.sends = [] ∧
    (onMessage env st ws (.ok f)).1.dbCalls = [] ∧
    (onMessage env st ws (.ok f)).1.st = st := by
  simp [onMessage, onMessageBody, h1, h2]

/-- Instance of C8: a `{type:"ping"}` frame is silently ignored. -/
theorem unknown_type_ignored_witness :
    (onMessage demoEnv st0 0
      (.ok ⟨.str "ping", .undefined, .undefined, .undefined,
        .undefined⟩)).1.sends = [] ∧
    (onMessage demoEnv st0 0
      (.ok ⟨.str "ping", .undefined, .undefined, .undefined,
        .undefined⟩)).1.dbCalls = [] ∧
    (onMessage demoEnv st0 0
      (.ok ⟨.str "ping", .undefined, .undefined, .undefined,
        .undefined⟩)).1.st = st0 :=
  unknown_type_ignored demoEnv st0 0 _ (by decide) (by decide)

/-- C3 counterexample: room `"r1"` exists with authorized users `[1, 2]`
and userId `0` is not among them, so the claim requires the Unauthorized
error reply — but the code's falsiness check fires first and replies with
the `"Missing roomId or userId"` error instead. -/
theorem register_userId_zero_not_unauthorized_reply :
    demoEnv.findRoomReg (.str "r1") = .ok (some ⟨[1, 2]⟩) ∧
    (onMessage demoEnv st0 0
      (.ok (regFrame "r1" (.num (.int 0))))).1.sends
      = [(0, .error "Missing roomId or userId")] ∧
    ∀ fr ∈ (onMessage demoEnv st0 0
        (.ok (regFrame "r1" (.num (.int 0))))).1.sends,
      fr.2 ≠ OutFrame.error "Unauthorized user or room" := by decide

/-- C3 (amended): for a register frame whose `roomId` and `userId` fields
are JS-truthy, whose `roomId` names an existing room, and whose coerced
userId is not among the room's authorized user ids, the operation fails
with the Unauthorized error reply and leaves the Connection Registry and
the Room Index unchanged (a falsy `userId` such as `0` is instead caught
by the presence check with the Missing error, likewise without mutation). -/
theorem register_unauthorized_rejected (env : Env) (st : ServerState)
    (ws : Nat) (f : Frame) (room : RoomRec)
    (ht : f.type = .str "register")
    (hr : f.roomId.truthy = true) (hu : f.userId.truthy = true)
    (hroom : env.findRoomReg f.roomId = .ok (some room))
    (hauth : (room.users.any fun u =>
      jsNumStrictEq (.int u) (toNumber f.userId)) = false)
    (hok : ∀ n, env.sendOk n = true) :
    (onMessage env st ws (.ok f)).1.sends
      = [(ws, .error "Unauthorized user or room")] ∧
    (onMessage env st ws (.ok f)).1.st = st := by
  simp [onMessage, onMessageBody, handleRegister, ht,
    jsStrictEq_register_register, hr, hu, hroom, hauth, sendRet, trySend,
    logDb, hok]

/-- Instance of C3 (amended): userId `5` is truthy and unauthorized for
room `"r1"`; the reply is the Unauthorized error and the state is kept. -/
theorem register_unauthorized_rejected_witness :
    (onMessage demoEnv st0 0
      (.ok (regFrame "r1" (.num (.int 5))))).1.sends
      = [(0, .error "Unauthorized user or room")] ∧
    (onMessage demoEnv st0 0
      (.ok (regFrame "r1" (.num (.int 5))))).1.st = st0 :=
  register_unauthorized_rejected demoEnv st0 0 _ ⟨[1, 2]⟩ rfl (by decide)
    (by decide) (by decide) (by decide) (fun _ => rfl)

/-- C4 counterexample: `roomId` `"r1"` is present and userId `0` coerces to
the integer `0`, so the claim says this register request passes the
validation step — but the code rejects it with the Missing error (the
falsiness check), making no store call. -/
theorem register_integer_zero_rejected :
    toNumber (.num (.int 0)) = .int 0 ∧
    (onMessage demoEnv st0 0
      (.ok (regFrame "r1" (.num (.int 0))))).1.dbCalls = [] ∧
    (onMessage demoEnv st0 0
      (.ok (regFrame "r1" (.num (.int 0))))).1.sends
      ≠ [] := by decide

/-- C4 (amended): the register validation is JS truthiness only: a register
frame is rejected with the `"Missing roomId or userId"` error — with no
state mutation and no store call — exactly when `roomId` or `userId` is
JS-falsy; any truthy pair passes this step (even a non-numeric `userId`)
and proceeds to the room lookup, never producing the Missing error. -/
theorem register_validation_truthiness (env : Env) (st : ServerState)
    (ws : Nat) (f : Frame)
    (ht : f.type = .str "register") (hok : ∀ n, env.sendOk n = true) :
    (¬(f.roomId.truthy = true ∧ f.userId.truthy = true) →
      (onMessage env st ws (.ok f)).1.sends
        = [(ws, .error "Missing roomId or userId")] ∧
      (onMessage env st ws (.ok f)).1.dbCalls = [] ∧
      (onMessage env st ws (.ok f)).1.st = st) ∧
    ((f.roomId.truthy = true ∧ f.userId.truthy = true) →
      (onMessage env st ws (.ok f)).1.dbCalls.head?
        = some (.roomLookupReg f.roomId) ∧
      ∀ fr ∈ (onMessage env st ws (.ok f)).1.sends,
        fr.2 ≠ OutFrame.error "Missing roomId or userId") := by
  constructor
  · intro hfalsy
    have hcond : (!f.roomId.truthy || !f.userId.truthy) = true := by
      cases hb : f.roomId.truthy with
      | false => simp
      | true =>
        cases hu : f.userId.truthy with
        | false => simp
        | true => exact absurd ⟨hb, hu⟩ hfalsy
    simp [onMessage, onMessageBody, handleRegister, ht,
      jsStrictEq_register_register, hcond, sendRet, trySend, hok]
  · rintro ⟨hr, hu⟩
    cases hdb : env.findRoomReg f.roomId with
    | err =>
      simp [onMessage, onMessageBody, handleRegister, ht,
        jsStrictEq_register_register, hr, hu, hdb, sendRet, trySend, logDb,
        hok]
    | ok o =>
      cases o with
      | none =>
        simp [onMessage, onMessageBody, handleRegister, ht,
          jsStrictEq_register_register, hr, hu, hdb, sendRet, trySend,
          logDb, hok]
      | some room =>
        by_cases h2 : (!room.users.any fun u =>
            jsNumStrictEq (.int u) (toNumber f.userId)) = true
        · simp [onMessage, onMessageBody, handleRegister, ht,
            jsStrictEq_register_register, hr, hu, hdb, h2, sendRet, trySend,
            logDb, hok]
        · simp [onMessage, onMessageBody, handleRegister, ht,
            jsStrictEq_register_register, hr, hu, hdb, h2, sendSwallow,
            trySend, logDb, hok]

/-- Instance of C4 (amended): an empty (falsy) `roomId` with a valid userId
is rejected by the presence check without any mutation or store call. -/
theorem register_validation_truthiness_witness :
    (onMessage demoEnv st0 0
      (.ok ⟨.str "register", .str "", .num (.int 1), .undefined,
        .undefined⟩)).1.sends
      = [(0, .error "Missing roomId or userId")] ∧
    (onMessage demoEnv st0 0
      (.ok ⟨.str "register", .str "", .num (.int 1), .undefined,
        .undefined⟩)).1.dbCalls = [] ∧
    (onMessage demoEnv st0 0
      (.ok ⟨.str "register", .str "", .num (.int 1), .undefined,
        .undefined⟩)).1.st = st0 :=
  (register_validation_truthiness demoEnv st0 0 _ rfl (fun _ => rfl)).1
    (by decide)

/-- C5: a message frame from a registered connection whose `roomId` or
coerced `user_id` differs from the connection's Session fails with the
ContextMismatch-class `"Invalid room or user context"` error sent to the
sender, makes no external-store call (no room lookup, no persistence), and
mutates nothing — in particular no broadcast occurs. -/
theorem message_context_mismatch_rejected (env : Env) (st : ServerState)
    (ws : Nat) (f : Frame) (meta : Session)
    (ht : f.type = .str "message")
    (hm : mapGet st.activeClients ws = some meta)
    (hmis : jsStrictEq f.roomId meta.roomId = false ∨
      jsNumStrictEq (toNumber f.user_id) meta.userId = false)
    (hok : ∀ n, env.sendOk n = true) :
    (onMessage env st ws (.ok f)).1.sends
      = [(ws, .error "Invalid room or user context")] ∧
    (onMessage env st ws (.ok f)).1.dbCalls = [] ∧
    (onMessage env st ws (.ok f)).1.st = st := by
  rcases hmis with h | h <;>
    simp [onMessage, onMessageBody, handleMessage, ht,
      jsStrictEq_message_register, jsStrictEq_message_message, hm, h,
      sendRet, trySend, hok]

/-- Instance of C5: socket 0 is registered in `"r1"` but claims `"r2"` in a
message frame; only the context error is sent and nothing else happens. -/
theorem message_context_mismatch_rejected_witness :
    (onMessage demoEnv st1 0
      (.ok (msgFrame "r2" (.num (.int 1)) (.str "hi")))).1.sends
      = [(0, .error "Invalid room or user context")] ∧
    (onMessage demoEnv st1 0
      (.ok (msgFrame "r2" (.num (.int 1)) (.str "hi")))).1.dbCalls = [] ∧
    (onMessage demoEnv st1 0
      (.ok (msgFrame "r2" (.num (.int 1)) (.str "hi")))).1.st = st1 :=
  message_context_mismatch_rejected demoEnv st1 0 _ ⟨.int 1, .str "r1"⟩ rfl
    (by decide) (Or.inl (by decide)) (fun _ => rfl)

/-- C6: when a message frame passes registration, context and room
re-validation but `prisma.chat.create` fails, the sender gets only the
PersistenceError-class `"Failed to save message"` error: no `message-sent`
acknowledgment and no `new-message` frame is attempted for anyone. -/
theorem persistence_failure_no_broadcast (env : Env) (st : ServerState)
    (ws : Nat) (f : Frame) (meta : Session)
    (ht : f.type = .str "message")
    (hm : mapGet st.activeClients ws = some meta)
    (hc1 : jsStrictEq f.roomId meta.roomId = true)
    (hc2 : jsNumStrictEq (toNumber f.user_id) meta.userId = true)
    (hroom : env.findRoomMsg f.roomId = .ok (some ()))
    (hp : env.persistOk = false)
    (hok : ∀ n, env.sendOk n = true) :
    (onMessage env st ws (.ok f)).1.sends
      = [(ws, .error "Failed to save message")] ∧
    (onMessage env st ws (.ok f)).1.st = st := by
  simp [onMessage, onMessageBody, handleMessage, ht,
    jsStrictEq_message_register, jsStrictEq_message_message, hm, hc1, hc2,
    hroom, hp, sendRet, trySend, logDb, hok]

/-- Instance of C6: with a failing chat store, socket 0's valid message in
`"r1"` yields only the persistence error; socket 1 receives nothing. -/
theorem persistence_failure_no_broadcast_witness :
    (onMessage demoEnvNoPersist st1 0
      (.ok (msgFrame "r1" (.num (.int 1)) (.str "hi")))).1.sends
      = [(0, .error "Failed to save message")] ∧
    (onMessage demoEnvNoPersist st1 0
      (.ok (msgFrame "r1" (.num (.int 1)) (.str "hi")))).1.st = st1 :=
  persistence_failure_no_broadcast demoEnvNoPersist st1 0 _
    ⟨.int 1, .str "r1"⟩ rfl (by decide) (by decide) (by decide) (by decide)
    rfl (fun _ => rfl)

/-- C7: a successfully persisted message is acknowledged to the sender with
`message-sent`, and the `new-message` frame goes exactly to the sockets
other than the sender whose Session `roomId` strictly equals the message's
`roomId`, whose Session `userId` is in `membersOf(roomId)`, and whose
transport `readyState` is open — in that order of the live-client map; the
sender never receives a `new-message` frame. -/
theorem fanout_exact_recipients (env : Env) (st : ServerState) (ws : Nat)
    (f : Frame) (meta : Session)
    (ht : f.type = .str "message")
    (hm : mapGet st.activeClients ws = some meta)
    (hc1 : jsStrictEq f.roomId meta.roomId = true)
    (hc2 : jsNumStrictEq (toNumber f.user_id) meta.userId = true)
    (hroom : env.findRoomMsg f.roomId = .ok (some ()))
    (hp : env.persistOk = true) :
    (onMessage env st ws (.ok f)).1.sends
      = (ws, OutFrame.messageSent (mkChat env f)) ::
        ((st.activeClients.filter fun e =>
            e.1 != ws && jsStrictEq e.2.roomId f.roomId &&
            (membersOf st f.roomId).contains e.2.userId &&
            env.openState e.1).map
          fun e => (e.1, OutFrame.newMessage (mkChat env f))) ∧
    ∀ fr ∈ (onMessage env st ws (.ok f)).1.sends,
      (∃ c, fr.2 = OutFrame.newMessage c) → fr.1 ≠ ws := by
  have hmain : (onMessage env st ws (.ok f)).1.sends
      = (ws, OutFrame.messageSent (mkChat env f)) ::
        ((st.activeClients.filter fun e =>
            e.1 != ws && jsStrictEq e.2.roomId f.roomId &&
            (membersOf st f.roomId).contains e.2.userId &&
            env.openState e.1).map
          fun e => (e.1, OutFrame.newMessage (mkChat env f))) := by
    cases hrm : rmGet st.roomUserMap f.roomId with
    | none =>
      simp [onMessage, onMessageBody, handleMessage, ht,
        jsStrictEq_message_register, jsStrictEq_message_message, hm, hc1,
        hc2, hroom, hp, hrm, sendSwallow, trySend, logDb, membersOf, mkChat]
    | some recips =>
      simp [onMessage, onMessageBody, handleMessage, ht,
        jsStrictEq_message_register, jsStrictEq_message_message, hm, hc1,
        hc2, hroom, hp, hrm, sendSwallow, trySend, logDb, membersOf,
        broadcast_sends, bcastCond, mkChat]
  refine ⟨hmain, ?_⟩
  rw [hmain]
  rintro fr hfr ⟨c, hcc⟩
  rcases List.mem_cons.mp hfr with rfl | hfr'
  · simp at hcc
  · obtain ⟨e, he, rfl⟩ := List.mem_map.mp hfr'
    have hcond := List.of_mem_filter he
    simp only [Bool.and_eq_true, bne_iff_ne] at hcond
    exact hcond.1.1.1

/-- Instance of C7: socket 0 (user 1) sends in `"r1"`; socket 0 gets only
the acknowledgment and socket 1 (user 2, same room, open) gets exactly one
`new-message` frame. -/
theorem fanout_exact_recipients_witness :
    (onMessage demoEnv st1 0
      (.ok (msgFrame "r1" (.num (.int 1)) (.str "hi")))).1.sends
      = [(0, OutFrame.messageSent ⟨.str "hi", 0, .int 1, .str "r1"⟩),
         (1, OutFrame.newMessage ⟨.str "hi", 0, .int 1, .str "r1"⟩)] :=
  (fanout_exact_recipients demoEnv st1 0 _ ⟨.int 1, .str "r1"⟩ rfl
    (by decide) (by decide) (by decide) (by decide) rfl).1.trans (by decide)

/-- C10: the message relay never validates `text`: for any `text` value at
all (absent, `null`, non-string) a context-matching message in an existing
room is persisted with exactly that raw value as the stored `message`
field, acknowledged, and handed to the fanout. -/
theorem message_text_unvalidated (env : Env) (st : ServerState) (ws : Nat)
    (f : Frame) (meta : Session)
    (ht : f.type = .str "message")
    (hm : mapGet st.activeClients ws = some meta)
    (hc1 : jsStrictEq f.roomId meta.roomId = true)
    (hc2 : jsNumStrictEq (toNumber f.user_id) meta.userId = true)
    (hroom : env.findRoomMsg f.roomId = .ok (some ()))
    (hp : env.persistOk = true) :
    (onMessage env st ws (.ok f)).1.dbCalls
      = [.roomLookupMsg f.roomId, .chatCreate (mkChat env f)] ∧
    (mkChat env f).message = f.text ∧
    (ws, OutFrame.messageSent (mkChat env f))
      ∈ (onMessage env st ws (.ok f)).1.sends := by
  cases hrm : rmGet st.roomUserMap f.roomId with
  | none =>
    refine ⟨?_, rfl, ?_⟩ <;>
      simp [onMessage, onMessageBody, handleMessage, ht,
        jsStrictEq_message_register, jsStrictEq_message_message, hm, hc1,
        hc2, hroom, hp, hrm, sendSwallow, trySend, logDb, mkChat]
  | some recips =>
    refine ⟨?_, rfl, ?_⟩ <;>
      simp [onMessage, onMessageBody, handleMessage, ht,
        jsStrictEq_message_register, jsStrictEq_message_message, hm, hc1,
        hc2, hroom, hp, hrm, sendSwallow, trySend, logDb, mkChat,
        broadcast_sends, broadcast_dbCalls]

/-- Instance of C10: a message whose `text` is `null` is persisted with
`message = null` after the room lookup. -/
theorem message_text_unvalidated_witness :
    (onMessage demoEnv st1 0
      (.ok (msgFrame "r1" (.num (.int 1)) .null))).1.dbCalls
      = [.roomLookupMsg (.str "r1"),
         .chatCreate ⟨.null, 0, .int 1, .str "r1"⟩] :=
  (message_text_unvalidated demoEnv st1 0 _ ⟨.int 1, .str "r1"⟩ rfl
    (by decide) (by decide) (by decide) (by decide) rfl).1.trans (by decide)

/-- In a send log of the shapes the handler body produces, every error
frame is addressed to the sender. -/
theorem sends_err_target (ws : Nat) (l : List (Nat × OutFrame))
    (hl : l = [] ∨ (∃ fr, l = [(ws, fr)]) ∨
      (∃ chat rest, l = (ws, OutFrame.messageSent chat) :: rest ∧
        ∀ x ∈ rest, ∃ tgt c, x = (tgt, OutFrame.newMessage c))) :
    ∀ fr ∈ l, fr.2.isError = true → fr.1 = ws := by
  intro fr hfr hErr
  rcases hl with rfl | ⟨f, rfl⟩ | ⟨chat, rest, rfl, hall⟩
  · simp at hfr
  · simp at hfr; rw [hfr]
  · rcases List.mem_cons.mp hfr with rfl | h
    · rfl
    · obtain ⟨tgt, c, rfl⟩ := hall fr h
      simp [OutFrame.isError] at hErr

/-- In a send log of the shapes the handler body produces, there is at most
one error frame. -/
theorem sends_err_count (ws : Nat) (l : List (Nat × OutFrame))
    (hl : l = [] ∨ (∃ fr, l = [(ws, fr)]) ∨
      (∃ chat rest, l = (ws, OutFrame.messageSent chat) :: rest ∧
        ∀ x ∈ rest, ∃ tgt c, x = (tgt, OutFrame.newMessage c))) :
    errCount l ≤ 1 := by
  rcases hl with rfl | ⟨f, rfl⟩ | ⟨chat, rest, rfl, hall⟩
  · simp [errCount]
  · cases hf : f.isError <;> simp [errCount, hf]
  · have hnil : ((ws, OutFrame.messageSent chat) :: rest).filter
        (fun fr => fr.2.isError) = [] := by
      rw [List.filter_eq_nil_iff]
      intro x hx
      rcases List.mem_cons.mp hx with rfl | h
      · simp [OutFrame.isError]
      · obtain ⟨tgt, c, rfl⟩ := hall x h
        simp [OutFrame.isError]
    simp [errCount, hnil]

/-- C9: processing one inbound frame never lets an exception escape the
`ws.on("message")` boundary, whatever the parse outcome, the store results
and the per-send failures; every error frame ever attempted is addressed to
the originating socket only; and when the transport sends succeed, at most
one error frame is produced per inbound frame — with a JSON parse failure
producing exactly the single `"Invalid JSON format"` error. -/
theorem dispatcher_exception_boundary (env : Env) (st : ServerState)
    (ws : Nat) (input : ParseResult) :
    (onMessage env st ws input).2 = .done ∧
    (∀ fr ∈ (onMessage env st ws input).1.sends,
      fr.2.isError = true → fr.1 = ws) ∧
    ((∀ n, env.sendOk n = true) →
      errCount (onMessage env st ws input).1.sends ≤ 1 ∧
      (input = .fail →
        (onMessage env st ws input).1.sends
          = [(ws, .error "Invalid JSON format")])) := by
  have hchar := onMessageBody_sends_char env st ws input
  refine ⟨?_, ?_, ?_⟩
  · rcases hb : onMessageBody env st ws input with ⟨p, fl⟩
    cases fl <;> simp [onMessage, hb]
  · rcases hb : onMessageBody env st ws input with ⟨p, fl⟩
    rw [hb] at hchar
    cases fl with
    | done =>
      simp only [onMessage, hb]
      exact sends_err_target ws p.sends hchar
    | thrown =>
      simp only [onMessage, hb, sendSwallow, trySend]
      intro fr hfr hErr
      rcases List.mem_append.mp hfr with hfr' | hfr'
      · exact sends_err_target ws p.sends hchar fr hfr' hErr
      · simp at hfr'; rw [hfr']
  · intro hok
    have hfl := onMessageBody_flow env st ws input hok
    rcases hb : onMessageBody env st ws input with ⟨p, fl⟩
    rw [hb] at hfl hchar
    cases fl with
    | thrown => simp at hfl
    | done =>
      refine ⟨?_, ?_⟩
      · simp only [onMessage, hb]
        exact sends_err_count ws p.sends hchar
      · rintro rfl
        simp [onMessage, onMessageBody, sendRet, trySend, hok]

/-- Instance of C9: a parse failure completes normally and produces exactly
the single JSON error frame to the sender. -/
theorem dispatcher_exception_boundary_witness :
    (onMessage demoEnv st0 0 .fail).2 = .done ∧
    (onMessage demoEnv st0 0 .fail).1.sends
      = [(0, .error "Invalid JSON format")] :=
  ⟨(dispatcher_exception_boundary demoEnv st0 0 .fail).1,
   ((dispatcher_exception_boundary demoEnv st0 0 .fail).2.2
      (fun _ => rfl)).2 rfl⟩

end AKChat
